import Mathlib

/-!
Verification of the retrieval-ranking and answer-assembly pipeline of the
whatsapp-bot-pmpr repository, as a shallow embedding in Lean 4.

The embedding follows the Python sources:
  * `topk_client.py`  — multi-collection hybrid search, hit normalization, dedup;
  * `app.py`          — local RAG gate (`ask_ai_with_context`), context snippets,
                        post-synthesis citation validation;
  * `utils/prompt.py` — prompt builder (`build_prompt`, `_format_history`, ...);
  * `synonyms.py`     — acronym/synonym query expansion (`expand_query`).

External I/O (the TopK SDK backend, the OpenAI chat completion, the embedding
call) is modelled by oracle parameters: a backend call is an
`Except String (List RawItem)` value (error = raised transport/backend
exception), a chat completion is a function `String → Option String`
(`none` = raised exception, `some t` = returned message content).
Python strings are Lean `String`s; numeric scores (Python floats) are modelled
as rationals `ℚ`, which is faithful for every comparison the code performs.
-/

namespace PmprBot

/-! ## Python string primitives -/

/-- Whitespace recognised by Python `str.strip` / regex `\s` (ASCII part). -/
def isPySpace (c : Char) : Bool :=
  c = ' ' || c = '\t' || c = '\n' || c = '\r' || c = Char.ofNat 11 || c = Char.ofNat 12

/-- Model of Python `str.strip()` on a character list. -/
def pyStripList (l : List Char) : List Char :=
  ((l.dropWhile isPySpace).reverse.dropWhile isPySpace).reverse

/-- Model of Python `str.rstrip()` on a character list. -/
def pyRstripList (l : List Char) : List Char :=
  (l.reverse.dropWhile isPySpace).reverse

/-- Model of Python `str.strip()`. -/
def pyStrip (s : String) : String := String.mk (pyStripList s.data)

/-- Model of Python `str.lower()` for ASCII and Latin-1 letters (the alphabet
used by this code base; other code points are left unchanged). -/
def pyLowerChar (c : Char) : Char :=
  if 'A' ≤ c ∧ c ≤ 'Z' then Char.ofNat (c.toNat + 32)
  else if 0xC0 ≤ c.toNat ∧ c.toNat ≤ 0xDE ∧ c.toNat ≠ 0xD7 then Char.ofNat (c.toNat + 32)
  else c

/-- Model of `unicodedata.normalize("NFD", ·).encode("ascii","ignore")` for the
Latin-1 letters this code base manipulates: accented letters are folded to their
base ASCII letter, other non-ASCII code points are dropped. -/
def asciiFoldChar (c : Char) : List Char :=
  if c.toNat < 128 then [c]
  else if c ∈ ['à', 'á', 'â', 'ã', 'ä', 'å', 'À', 'Á', 'Â', 'Ã', 'Ä', 'Å'] then ['a']
  else if c ∈ ['ç', 'Ç'] then ['c']
  else if c ∈ ['è', 'é', 'ê', 'ë', 'È', 'É', 'Ê', 'Ë'] then ['e']
  else if c ∈ ['ì', 'í', 'î', 'ï', 'Ì', 'Í', 'Î', 'Ï'] then ['i']
  else if c ∈ ['ñ', 'Ñ'] then ['n']
  else if c ∈ ['ò', 'ó', 'ô', 'õ', 'ö', 'Ò', 'Ó', 'Ô', 'Õ', 'Ö'] then ['o']
  else if c ∈ ['ù', 'ú', 'û', 'ü', 'Ù', 'Ú', 'Û', 'Ü'] then ['u']
  else if c ∈ ['ý', 'ÿ', 'Ý'] then ['y']
  else []

/-- Model of `topk_client._ascii` on a character list. -/
def pyAsciiList (l : List Char) : List Char := (l.map asciiFoldChar).flatten

/-- Word character for Python regex `\b` / `\w` (ASCII plus Latin-1 letters). -/
def isWordChar (c : Char) : Bool :=
  c.isAlpha || c.isDigit || c = '_' ||
    (0xC0 ≤ c.toNat && c.toNat ≤ 0xFF && c.toNat ≠ 0xD7 && c.toNat ≠ 0xF7)

/-- Model of Python `sep.join(parts)`. -/
def pyJoin (sep : String) : List String → String
  | [] => ""
  | [x] => x
  | x :: y :: xs => x ++ sep ++ pyJoin sep (y :: xs)

/-- Does the second list start with the first one? -/
def startsWithList (needle : List Char) (l : List Char) : Bool :=
  match needle, l with
  | [], _ => true
  | _ :: _, [] => false
  | a :: as, b :: bs => a = b && startsWithList as bs

/-- Scan every suffix of the haystack for the needle. -/
def substrScan (needle : List Char) : List Char → Bool
  | [] => startsWithList needle []
  | c :: rest => startsWithList needle (c :: rest) || substrScan needle rest

/-- Boolean substring test, used for the Python `in` operator on strings. -/
def containsSubstr (needle haystack : String) : Bool :=
  substrScan needle.data haystack.data

/-- String append acts as list append on the underlying character data. -/
theorem strData_append (s t : String) : (s ++ t).data = s.data ++ t.data := rfl

/-! ## Citation marker scan

Model of the regex search `re.compile(r"\[\d+\]").search` from `app.py`
(`_CITATION_PATTERN`): is there an occurrence of a bracket, one or more
digits, and a closing bracket. -/

/-- After at least one digit has been read: accept on a closing bracket,
keep consuming digits otherwise. -/
def citClose : List Char → Bool
  | [] => false
  | c :: rest => if c = ']' then true else if c.isDigit then citClose rest else false

/-- Right after the opening bracket: require at least one digit. -/
def citDigits : List Char → Bool
  | [] => false
  | c :: rest => if c.isDigit then citClose rest else false

/-- Scan for an occurrence of the `[digits]` pattern. -/
def hasCitationAux : List Char → Bool
  | [] => false
  | c :: rest => (c = '[' && citDigits rest) || hasCitationAux rest

/-- Model of `_CITATION_PATTERN.search(answer)` being a match (`app.py`). -/
def hasCitation (s : String) : Bool := hasCitationAux s.data

/-! ## Score values

Python stores scores as floats (or, defensively, other types); the field-
picking chain of `_normalize_item` only tests truthiness and passes the value
through, so a rational-valued model is faithful. -/

/-- A value found under a score key of a raw backend record. -/
inductive ScoreVal where
  | vnum (x : ℚ)
  | vstr (s : String)
deriving DecidableEq

/-- Python truthiness of a score value: `0`, `0.0` and `""` are falsy. -/
def truthyScore : ScoreVal → Bool
  | .vnum x => x ≠ 0
  | .vstr s => s ≠ ""

/-- Python `a or b` where `a` is `item.get(key)` (so `none` = missing key)
and the result may again be an optional value. -/
def pyOrV (a b : Option ScoreVal) : Option ScoreVal :=
  match a with
  | some v => if truthyScore v then some v else b
  | none => b

/-- Python `a or b` for an optional string `a` with a string fallback `b`:
missing keys and empty strings are falsy. -/
def pyOrS (a : Option String) (b : String) : String :=
  match a with
  | some s => if s ≠ "" then s else b
  | none => b

/-- Python `a or b` for two optional strings (used before `_normalize_date`). -/
def pyOrOpt (a b : Option String) : Option String :=
  match a with
  | some s => if s ≠ "" then some s else b
  | none => b

/-- Python `a or b` for two plain strings. -/
def strOr (a b : String) : String := if a ≠ "" then a else b

/-! ## Raw backend records and normalized hits (`topk_client.py`) -/

/-- A raw record returned by the TopK backend, as consumed by
`_normalize_item` in `topk_client.py`: every key that the defensive
field-picking chains may read. A `none` field is a missing key.
The Python keys `_id`, `_score` and `section` are named `uid`, `uscore`
and `sectionKey` here (the originals are not valid Lean field names). -/
structure RawItem where
  doc_id : Option String := none
  document_id : Option String := none
  id : Option String := none
  uid : Option String := none
  artigo_numero : Option String := none
  artigo : Option String := none
  sectionKey : Option String := none
  titulo : Option String := none
  title : Option String := none
  trecho : Option String := none
  excerto : Option String := none
  ementa : Option String := none
  texto : Option String := none
  text : Option String := none
  content : Option String := none
  score : Option ScoreVal := none
  text_score : Option ScoreVal := none
  sim : Option ScoreVal := none
  similarity : Option ScoreVal := none
  uscore : Option ScoreVal := none
  numero : Option String := none
  num : Option String := none
  data : Option String := none
deriving DecidableEq

/-- A normalized search hit, the dictionary built by `_normalize_item`
(`topk_client.py`); `fonte_colecao` is the tag stamped on by
`search_topk_multi` (`none` before tagging). The `_raw` backref is omitted. -/
structure Hit where
  doc_id : String
  artigo_numero : String
  titulo : String
  trecho : String
  score : Option ScoreVal
  numero_portaria : String
  ano : String
  fonte_colecao : Option String := none
deriving DecidableEq

/-- Model of `_merge_excerto` (`topk_client.py`): strip `ementa` and `texto`,
join the non-empty parts with a space, strip the result. -/
def _merge_excerto (it : RawItem) : String :=
  let e := pyStrip (it.ementa.getD "")
  let t := pyStrip (it.texto.getD "")
  pyStrip (pyJoin " " ((if e ≠ "" then [e] else []) ++ (if t ≠ "" then [t] else [])))

/-- The score-picking chain of `_normalize_item` (`topk_client.py`):
`item.get("score") or item.get("text_score") or item.get("sim") or
item.get("similarity") or item.get("_score")`. -/
def pickScore (it : RawItem) : Option ScoreVal :=
  pyOrV it.score (pyOrV it.text_score (pyOrV it.sim (pyOrV it.similarity it.uscore)))

/-- The excerpt-picking chain of `_normalize_item` (`topk_client.py`). -/
def pickTrecho (it : RawItem) : String :=
  pyStrip (pyOrS it.trecho (pyOrS it.excerto (strOr (_merge_excerto it)
    (pyOrS it.text (pyOrS it.content "")))))

/-- Model of `_normalize_item` (`topk_client.py`). -/
def _normalize_item (it : RawItem) : Hit :=
  { doc_id := pyOrS it.doc_id (pyOrS it.document_id (pyOrS it.id (pyOrS it.uid "-")))
    artigo_numero := pyOrS it.artigo_numero (pyOrS it.artigo (pyOrS it.sectionKey "-"))
    titulo := pyOrS it.titulo (pyOrS it.title "-")
    trecho := pickTrecho it
    score := pickScore it
    numero_portaria := pyOrS it.numero (pyOrS it.num "")
    ano := pyOrS it.data ""
    fonte_colecao := none }

/-! ## Deduplication (`topk_client._dedupe`) -/

/-- Identity key of a hit: `(doc_id, artigo_numero, titulo.strip())`,
exactly the tuple built in `_dedupe` (`topk_client.py`). -/
def keyOf (h : Hit) : String × String × String :=
  (h.doc_id, h.artigo_numero, pyStrip h.titulo)

/-- Loop of `_dedupe` with its `seen` set of keys (modelled as a list). -/
def dedupeAux (seen : List (String × String × String)) : List Hit → List Hit
  | [] => []
  | it :: rest =>
    if keyOf it ∈ seen then dedupeAux seen rest
    else it :: dedupeAux (keyOf it :: seen) rest

/-- Model of `_dedupe` (`topk_client.py`): keep the first hit of each key. -/
def _dedupe (items : List Hit) : List Hit := dedupeAux [] items

theorem dedupeAux_sublist (seen : List (String × String × String)) (l : List Hit) :
    (dedupeAux seen l).Sublist l := by
  induction l generalizing seen with
  | nil => simp [dedupeAux]
  | cons it rest ih =>
    by_cases h : keyOf it ∈ seen
    · simpa [dedupeAux, h] using (ih seen).cons it
    · simpa [dedupeAux, h] using (ih (keyOf it :: seen)).cons₂ it

theorem keyOf_not_mem_seen {seen : List (String × String × String)} {l : List Hit}
    {x : Hit} (hx : x ∈ dedupeAux seen l) : keyOf x ∉ seen := by
  induction l generalizing seen with
  | nil => simp [dedupeAux] at hx
  | cons it rest ih =>
    by_cases h : keyOf it ∈ seen
    · exact ih (by simpa [dedupeAux, h] using hx)
    · rw [dedupeAux, if_neg h] at hx
      rcases List.mem_cons.mp hx with rfl | hx'
      · exact h
      · have := ih hx'
        intro hc
        exact this (List.mem_cons_of_mem _ hc)

theorem dedupeAux_keys_nodup (seen : List (String × String × String)) (l : List Hit) :
    ((dedupeAux seen l).map keyOf).Nodup := by
  induction l generalizing seen with
  | nil => simp [dedupeAux]
  | cons it rest ih =>
    by_cases h : keyOf it ∈ seen
    · simpa [dedupeAux, h] using ih seen
    · rw [dedupeAux, if_neg h]
      refine List.nodup_cons.mpr ⟨?_, ih (keyOf it :: seen)⟩
      intro hmem
      rcases List.mem_map.mp hmem with ⟨y, hy, hkey⟩
      exact keyOf_not_mem_seen hy (by simp [hkey])

theorem dedupeAux_eq_self {seen : List (String × String × String)} {l : List Hit}
    (hfresh : ∀ x ∈ l, keyOf x ∉ seen) (hnd : (l.map keyOf).Nodup) :
    dedupeAux seen l = l := by
  induction l generalizing seen with
  | nil => rfl
  | cons it rest ih =>
    have hit : keyOf it ∉ seen := hfresh it (List.mem_cons_self it rest)
    rw [dedupeAux, if_neg hit]
    congr 1
    have hnd' : keyOf it ∉ rest.map keyOf ∧ (rest.map keyOf).Nodup := by
      rw [List.map_cons] at hnd
      exact List.nodup_cons.mp hnd
    refine ih ?_ hnd'.2
    intro x hx hmem
    rcases List.mem_cons.mp hmem with hk | hk
    · exact hnd'.1 (by exact hk ▸ List.mem_map_of_mem keyOf hx)
    · exact hfresh x (List.mem_cons_of_mem _ hx) hk

theorem dedupeAux_find? {seen : List (String × String × String)} {l : List Hit}
    {y : Hit} (hy : y ∈ dedupeAux seen l) :
    l.find? (fun z => keyOf z = keyOf y) = some y := by
  induction l generalizing seen with
  | nil => simp [dedupeAux] at hy
  | cons it rest ih =>
    by_cases h : keyOf it ∈ seen
    · rw [dedupeAux, if_pos h] at hy
      have hyn : keyOf y ∉ seen := keyOf_not_mem_seen hy
      have hne : keyOf it ≠ keyOf y := fun hc => hyn (hc ▸ h)
      rw [List.find?_cons_of_neg _ (by simpa using hne)]
      exact ih hy
    · rw [dedupeAux, if_neg h] at hy
      rcases List.mem_cons.mp hy with rfl | hy'
      · exact List.find?_cons_of_pos _ (by simp)
      · have hyn : keyOf y ∉ keyOf it :: seen := keyOf_not_mem_seen hy'
        have hne : keyOf it ≠ keyOf y := by
          intro hc
          exact hyn (by simp [hc])
        rw [List.find?_cons_of_neg _ (by simpa using hne)]
        exact ih hy'

theorem dedupeAux_covers {seen : List (String × String × String)} {l : List Hit}
    {x : Hit} (hx : x ∈ l) (hfresh : keyOf x ∉ seen) :
    ∃ y, y ∈ dedupeAux seen l ∧ keyOf y = keyOf x := by
  induction l generalizing seen with
  | nil => simp at hx
  | cons it rest ih =>
    by_cases h : keyOf it ∈ seen
    · rw [dedupeAux, if_pos h]
      rcases List.mem_cons.mp hx with rfl | hx'
      · exact absurd h hfresh
      · exact ih hx' hfresh
    · rw [dedupeAux, if_neg h]
      rcases List.mem_cons.mp hx with rfl | hx'
      · exact ⟨x, List.mem_cons_self _ _, rfl⟩
      · by_cases hk : keyOf x = keyOf it
        · exact ⟨it, List.mem_cons_self _ _, hk.symm⟩
        · have : keyOf x ∉ keyOf it :: seen := by
            intro hc
            rcases List.mem_cons.mp hc with hc' | hc'
            · exact hk hc'
            · exact hfresh hc'
          rcases ih hx' this with ⟨y, hy, hky⟩
          exact ⟨y, List.mem_cons_of_mem _ hy, hky⟩

theorem dedupe_cons_ne_nil (x : Hit) (l : List Hit) : _dedupe (x :: l) ≠ [] := by
  simp [_dedupe, dedupeAux]

/-! ## ID-like query detection (`topk_client._is_id_like`)

`_is_id_like` lowers and ASCII-folds the query, then requires a match of the
regex `\b(\d{2,6})\b` (`_extract_number`) and one of the document-type
keywords as a substring. The regex is modelled by an explicit scan: a maximal
digit run of length 2 to 6 whose neighbours (if any) are not word characters.
-/

/-- Split a leading digit run off a character list, returning its length and
the remainder. -/
def splitDigitRun : List Char → Nat × List Char
  | [] => (0, [])
  | c :: r => if c.isDigit then ((splitDigitRun r).1 + 1, (splitDigitRun r).2) else (0, c :: r)

/-- Scan for a `\b\d{2,6}\b` match; `prevWord` tells whether the previous
character was a word character (no word boundary before the current one). -/
def hasNum26Go (prevWord : Bool) : List Char → Bool
  | [] => false
  | c :: rest =>
    (c.isDigit && !prevWord &&
      (let p := splitDigitRun (c :: rest)
       decide (2 ≤ p.1) && decide (p.1 ≤ 6) &&
         (match p.2 with
          | [] => true
          | d :: _ => !isWordChar d)))
    || hasNum26Go (isWordChar c) rest

/-- Model of `re.search(r"\b(\d{2,6})\b", q)` being a match
(`topk_client._extract_number` used as a boolean test). -/
def hasNum26 (l : List Char) : Bool := hasNum26Go false l

/-- Document-type keywords of `_is_id_like` (`topk_client.py`). -/
def tiposIdLike : List String :=
  ["portaria", "diretriz", "lei", "decreto", "resolucao", "resolução",
   "memorando", "manual", "orientacao", "orientação", "pap", "pop",
   "nota de instrucao", "nota de instrução", "nota_de_instrucao"]

/-- Model of `_is_id_like` (`topk_client.py`): the lowered, ASCII-folded query
contains a bounded number (2-6 digits with word boundaries) and one of the
document-type keywords. -/
def _is_id_like (q : String) : Bool :=
  let ql := pyAsciiList (q.data.map pyLowerChar)
  if hasNum26 ql then
    tiposIdLike.any (fun t => substrScan t.data ql)
  else false

/-! ## Query strategies (`topk_client.py`)

Each strategy builds a TopK DSL query and iterates over the returned rows.
The backend call is an oracle `Except String (List RawItem)`: `Except.error`
models a raised transport/backend exception (caught by the `try/except` of
the strategy), `Except.ok rows` the rows returned for the requested `top_k`.
`queryImported` models the module-level `_QUERY_IMPORTED` flag. -/

/-- Model of `_keyword_query` (`topk_client.py`): BM25-only query; an
exception from the backend is caught and yields `[]`. -/
def _keyword_query (queryImported : Bool) (backend : Except String (List RawItem)) :
    List Hit :=
  if queryImported = false then []
  else
    match backend with
    | .error _ => []
    | .ok rows => rows.map _normalize_item

/-- Model of `_semantic_query` (`topk_client.py`): pure semantic fallback; an
exception from the backend is caught and yields `[]`. -/
def _semantic_query (queryImported : Bool) (backend : Except String (List RawItem)) :
    List Hit :=
  if queryImported = false then []
  else
    match backend with
    | .error _ => []
    | .ok rows => rows.map _normalize_item

/-- Model of `_hybrid_query` (`topk_client.py`): weighted semantic+BM25 query;
an exception from the backend is caught and answered by falling back to
`_semantic_query` (its own backend call being a separate oracle). -/
def _hybrid_query (queryImported : Bool)
    (backend semanticBackend : Except String (List RawItem)) : List Hit :=
  if queryImported = false then []
  else
    match backend with
    | .error _ => _semantic_query queryImported semanticBackend
    | .ok rows => rows.map _normalize_item

deriving instance DecidableEq for Except

/-- Per-request backend behaviour for one collection: the rows (or the raised
exception) of each of the three strategy queries. -/
structure StratEnv where
  keywordBackend : Except String (List RawItem)
  hybridBackend : Except String (List RawItem)
  semanticBackend : Except String (List RawItem)
deriving DecidableEq

/-- One collection as seen by `search_topk_multi`: its name in
`_collections` and its backend behaviour for the current request. -/
structure SearchCollection where
  name : String
  env : StratEnv
deriving DecidableEq

/-- Routing step of the `search_topk_multi` loop (`topk_client.py`): the two
successive assignments to `results` — keyword-first when the query is
ID-like, hybrid otherwise or as fallback when keyword yielded nothing. -/
def route_results (queryImported : Bool) (query : String) (env : StratEnv) : List Hit :=
  let results :=
    if _is_id_like query then _keyword_query queryImported env.keywordBackend
    else []
  if results = [] then _hybrid_query queryImported env.hybridBackend env.semanticBackend
  else results

/-- Loop body of `search_topk_multi` (`topk_client.py`) for one collection:
route the query, filter hits with empty excerpt, tag the survivors with
`fonte_colecao`, dedupe, truncate to `k`; a collection with no usable hit
contributes nothing. -/
def search_topk_multi_one (queryImported : Bool) (query : String) (k : Nat)
    (c : SearchCollection) : Option (String × List Hit) :=
  let sane := (route_results queryImported query c.env).filter
    (fun r => pyStripList r.trecho.data ≠ [])
  if sane = [] then none
  else some (c.name, (_dedupe (sane.map (fun r => { r with fonte_colecao := some c.name }))).take k)

/-- Model of `search_topk_multi` (`topk_client.py`): fan the query out to the
loaded collections, collecting one entry per collection with usable hits.
The Python dict (keyed by the unique collection names) is modelled as an
association list in collection order. -/
def search_topk_multi (queryImported : Bool) (colls : List SearchCollection)
    (query : String) (k : Nat) : List (String × List Hit) :=
  if query = "" then []
  else colls.filterMap (search_topk_multi_one queryImported query k)

/-! ## Per-collection packaging lemma -/

theorem search_topk_multi_one_some {qi : Bool} {query : String} {k : Nat}
    {c : SearchCollection} {entry : String × List Hit}
    (h : search_topk_multi_one qi query k c = some entry) :
    ∃ sane : List Hit, sane ≠ [] ∧
      (∀ r ∈ sane, pyStripList r.trecho.data ≠ []) ∧
      entry = (c.name,
        (_dedupe (sane.map (fun r => { r with fonte_colecao := some c.name }))).take k) := by
  rw [search_topk_multi_one] at h
  split at h
  · exact absurd h (by simp)
  · rename_i hcond
    refine ⟨_, hcond, ?_, (Option.some.inj h).symm⟩
    intro r hr
    have := (List.mem_filter.mp hr).2
    simpa using this

/-- C6: for every hit list, `_dedupe` retains exactly the first hit of each
identity key `(doc_id, artigo_numero, titulo.strip())` in input order
(the result is a sublist of the input, every retained hit is the first of its
key, every input key is represented, and retained keys are pairwise distinct),
and deduplicating an already-deduplicated list is a no-op:
`_dedupe (_dedupe xs) = _dedupe xs`. -/
theorem claim_C6_dedupe (xs : List Hit) :
    (_dedupe xs).Sublist xs ∧
    (∀ y ∈ _dedupe xs, xs.find? (fun z => keyOf z = keyOf y) = some y) ∧
    (∀ x ∈ xs, ∃ y, y ∈ _dedupe xs ∧ keyOf y = keyOf x) ∧
    ((_dedupe xs).map keyOf).Nodup ∧
    _dedupe (_dedupe xs) = _dedupe xs := by
  refine ⟨dedupeAux_sublist [] xs, fun y hy => dedupeAux_find? hy,
    fun x hx => dedupeAux_covers hx (by simp), dedupeAux_keys_nodup [] xs, ?_⟩
  exact dedupeAux_eq_self (fun x _ => by simp) (dedupeAux_keys_nodup [] xs)

/-- Two hits sharing the identity key but differing in excerpt (Scenario C of
the spec). -/
def hitDupA : Hit :=
  { doc_id := "D1", artigo_numero := "5", titulo := "Regulation X",
    trecho := "primeiro excerto", score := some (.vnum 2),
    numero_portaria := "123", ano := "2020", fonte_colecao := none }

/-- Second hit with the same identity key as `hitDupA`. -/
def hitDupB : Hit :=
  { doc_id := "D1", artigo_numero := "5", titulo := "Regulation X",
    trecho := "segundo excerto", score := some (.vnum 1),
    numero_portaria := "123", ano := "2020", fonte_colecao := none }

theorem claim_C6_dedupe_witness :
    ([hitDupA, hitDupB].find? (fun z => keyOf z = keyOf hitDupA) = some hitDupA) ∧
    _dedupe (_dedupe [hitDupA, hitDupB]) = _dedupe [hitDupA, hitDupB] :=
  ⟨(claim_C6_dedupe [hitDupA, hitDupB]).2.1 hitDupA (by decide),
   (claim_C6_dedupe [hitDupA, hitDupB]).2.2.2.2⟩

/-- C4: routing of `search_topk_multi` per collection. (1) For a query that is
not ID-like, the keyword (BM25) strategy is never consulted: the result does
not depend on the keyword backend (the query goes straight to hybrid).
(2) For an ID-like query whose keyword strategy yields hits, the hybrid and
semantic backends are never consulted. (3) For an ID-like query whose keyword
strategy yields zero hits, the collection behaves exactly as for a
non-ID-like query on the same backends: it falls back to the hybrid strategy. -/
theorem claim_C4_routing :
    (∀ (qi : Bool) (query : String) (k : Nat) (name : String)
        (kb kb' hb sb : Except String (List RawItem)),
      _is_id_like query = false →
        search_topk_multi_one qi query k ⟨name, ⟨kb, hb, sb⟩⟩ =
          search_topk_multi_one qi query k ⟨name, ⟨kb', hb, sb⟩⟩) ∧
    (∀ (qi : Bool) (query : String) (k : Nat) (name : String)
        (kb hb hb' sb sb' : Except String (List RawItem)),
      _is_id_like query = true →
      _keyword_query qi kb ≠ [] →
        search_topk_multi_one qi query k ⟨name, ⟨kb, hb, sb⟩⟩ =
          search_topk_multi_one qi query k ⟨name, ⟨kb, hb', sb'⟩⟩) ∧
    (∀ (qi : Bool) (query query' : String) (k : Nat) (name : String) (env : StratEnv),
      _is_id_like query = true →
      _is_id_like query' = false →
      _keyword_query qi env.keywordBackend = [] →
        search_topk_multi_one qi query k ⟨name, env⟩ =
          search_topk_multi_one qi query' k ⟨name, env⟩) := by
  refine ⟨?_, ?_, ?_⟩
  · intro qi query k name kb kb' hb sb h
    simp [search_topk_multi_one, route_results, h]
  · intro qi query k name kb hb hb' sb sb' h1 h2
    simp [search_topk_multi_one, route_results, h1, h2]
  · intro qi query query' k name env h1 h2 h3
    simp [search_topk_multi_one, route_results, h1, h2, h3]

/-- Raw backend row used in concrete instances: its excerpt comes from the
`ementa`/`texto` merge. -/
def rawRowA : RawItem :=
  { texto := some "conteudo do decreto sobre prazos", numero := some "123",
    titulo := some "Decreto 123", score := some (.vnum 1) }

theorem claim_C4_routing_witness :
    search_topk_multi_one true "qual o prazo" 5
        ⟨"Lei", ⟨Except.ok [rawRowA], Except.ok [], Except.ok []⟩⟩ =
      search_topk_multi_one true "qual o prazo" 5
        ⟨"Lei", ⟨Except.error "backend indisponivel", Except.ok [], Except.ok []⟩⟩ :=
  claim_C4_routing.1 true "qual o prazo" 5 "Lei" (Except.ok [rawRowA])
    (Except.error "backend indisponivel") (Except.ok []) (Except.ok []) (by decide)

/-- C5: every entry of the mapping returned by `search_topk_multi` is a
collection that produced at least one usable hit: the hit list is non-empty,
deduplicated (pairwise-distinct identity keys), has at most `k` hits, and
every hit has a non-empty (post-strip) excerpt and carries the source
collection tag. Collections without usable hits are omitted (no entry maps to
an empty list). -/
theorem claim_C5_aggregator (qi : Bool) (colls : List SearchCollection)
    (query : String) (k : Nat) (hk : 1 ≤ k) (name : String) (hits : List Hit)
    (hmem : (name, hits) ∈ search_topk_multi qi colls query k) :
    hits ≠ [] ∧ hits.length ≤ k ∧
    (∀ h ∈ hits, pyStripList h.trecho.data ≠ [] ∧ h.fonte_colecao = some name) ∧
    ((hits.map keyOf).Nodup) := by
  rw [search_topk_multi] at hmem
  split at hmem
  · simp at hmem
  · rcases List.mem_filterMap.mp hmem with ⟨c, _, hone⟩
    rcases search_topk_multi_one_some hone with ⟨sane, hne, hsane, hentry⟩
    have hname : name = c.name := congrArg Prod.fst hentry
    have hhits : hits =
        (_dedupe (sane.map (fun r => { r with fonte_colecao := some c.name }))).take k :=
      congrArg Prod.snd hentry
    subst hname hhits
    have htag : sane.map (fun r => { r with fonte_colecao := some c.name : Hit }) ≠ [] := by
      simpa using hne
    refine ⟨?_, ?_, ?_, ?_⟩
    · rcases hd : sane.map (fun r => { r with fonte_colecao := some c.name : Hit }) with
        _ | ⟨x, l⟩
      · exact absurd hd htag
      · rw [hd]
        intro hcon
        rcases (List.take_eq_nil_iff.mp hcon) with h0 | h0
        · omega
        · exact dedupe_cons_ne_nil x l h0
    · simp [Nat.min_le_left k]
    · intro h hh
      have hdd : h ∈ _dedupe (sane.map (fun r => { r with fonte_colecao := some c.name })) :=
        List.take_subset _ _ hh
      have hmap : h ∈ sane.map (fun r => { r with fonte_colecao := some c.name : Hit }) :=
        (dedupeAux_sublist _ _).subset hdd
      rcases List.mem_map.mp hmap with ⟨r, hr, rfl⟩
      exact ⟨hsane r hr, rfl⟩
    · have hsub : ((_dedupe (sane.map (fun r => { r with fonte_colecao := some c.name }))).take
          k).map keyOf |>.Sublist
          ((_dedupe (sane.map (fun r => { r with fonte_colecao := some c.name }))).map keyOf) :=
        (List.take_sublist _ _).map keyOf
      exact (dedupeAux_keys_nodup _ _).sublist hsub

/-- Concrete collection list for the C5 witness. -/
def collsC5 : List SearchCollection :=
  [⟨"Decreto", ⟨Except.ok [], Except.ok [rawRowA], Except.ok []⟩⟩,
   ⟨"Lei", ⟨Except.ok [], Except.ok [], Except.ok []⟩⟩]

/-- The single normalized, tagged hit produced by `collsC5`. -/
def hitC5 : Hit := { _normalize_item rawRowA with fonte_colecao := some "Decreto" }

theorem claim_C5_aggregator_witness :
    ([hitC5] : List Hit) ≠ [] ∧ ([hitC5] : List Hit).length ≤ 5 ∧
    (∀ h ∈ ([hitC5] : List Hit),
      pyStripList h.trecho.data ≠ [] ∧ h.fonte_colecao = some "Decreto") ∧
    ((([hitC5] : List Hit).map keyOf).Nodup) :=
  claim_C5_aggregator true collsC5 "qual o prazo" 5 (by decide) "Decreto" [hitC5]
    (by decide)

/-- C7 (amended): backend errors are caught inside each strategy and never
propagated. A keyword or pure-semantic error yields zero hits; a hybrid error
first falls back to a pure-semantic query (so it yields zero hits only when
that fallback also fails); and a collection whose backend calls all fail
contributes nothing while leaving the other collections' results unchanged. -/
theorem claim_C7_error_handling :
    (∀ (qi : Bool) (e : String), _keyword_query qi (Except.error e) = []) ∧
    (∀ (qi : Bool) (e : String), _semantic_query qi (Except.error e) = []) ∧
    (∀ (qi : Bool) (e : String) (sb : Except String (List RawItem)),
      _hybrid_query qi (Except.error e) sb = _semantic_query qi sb) ∧
    (∀ (qi : Bool) (e f : String),
      _hybrid_query qi (Except.error e) (Except.error f) = []) ∧
    (∀ (qi : Bool) (colls : List SearchCollection) (query : String) (k : Nat)
        (name e1 e2 e3 : String),
      search_topk_multi qi
          (⟨name, ⟨Except.error e1, Except.error e2, Except.error e3⟩⟩ :: colls) query k =
        search_topk_multi qi colls query k) := by
  refine ⟨?_, ?_, ?_, ?_, ?_⟩
  · intro qi e
    cases qi <;> rfl
  · intro qi e
    cases qi <;> rfl
  · intro qi e sb
    cases qi <;> rfl
  · intro qi e f
    cases qi <;> rfl
  · intro qi colls query k name e1 e2 e3
    rw [search_topk_multi, search_topk_multi]
    split
    · rfl
    · rw [List.filterMap_cons]
      have hnone : search_topk_multi_one qi query k
          ⟨name, ⟨Except.error e1, Except.error e2, Except.error e3⟩⟩ = none := by
        cases qi <;> simp [search_topk_multi_one, route_results, _keyword_query,
          _hybrid_query, _semantic_query]
      rw [hnone]

/-- Raw row served by the pure-semantic fallback in the C7 counterexample. -/
def rawRowSem : RawItem :=
  { texto := some "texto da lei aplicavel ao caso", titulo := some "Lei X",
    sim := some (.vnum 1) }

/-- Collection whose hybrid backend raises but whose semantic fallback works. -/
def collC7 : SearchCollection :=
  ⟨"Lei", ⟨Except.ok [], Except.error "transport failure", Except.ok [rawRowSem]⟩⟩

/-- C7 counterexample: a transport error is raised while executing the hybrid
strategy for collection `Lei`, yet the collection contributes one hit (from
the pure-semantic fallback) instead of being treated as zero hits. -/
theorem claim_C7_counterexample :
    search_topk_multi true [collC7] "qual a regra aplicavel" 5 =
      [("Lei", [{ _normalize_item rawRowSem with fonte_colecao := some "Lei" }])] ∧
    ([("Lei", [{ _normalize_item rawRowSem with fonte_colecao := some "Lei" }])] :
        List (String × List Hit)) ≠ [] := by
  exact ⟨by decide, by decide⟩

/-- C10: when the `score` key of a raw backend record is present but falsy
(`0`, `0.0` or `""`), `_normalize_item` treats it exactly as if the key were
missing: the normalized record is identical to the one obtained after erasing
the key, and the normalized score is whatever the later keys
(`text_score`, `sim`, `similarity`, `_score`) yield — `none` when all are
missing. -/
theorem claim_C10_falsy_score (it : RawItem) (v : ScoreVal)
    (hv : it.score = some v) (hfalsy : truthyScore v = false) :
    _normalize_item it = _normalize_item { it with score := none } ∧
    pickScore it = pyOrV it.text_score (pyOrV it.sim (pyOrV it.similarity it.uscore)) := by
  have hchain : pickScore it =
      pyOrV it.text_score (pyOrV it.sim (pyOrV it.similarity it.uscore)) := by
    rw [pickScore, hv]
    simp [pyOrV, hfalsy]
  have hscore : pickScore it = pickScore { it with score := none } := by
    rw [hchain]
    rfl
  refine ⟨?_, hchain⟩
  rw [_normalize_item, _normalize_item, hscore]
  rfl

/-- Raw record with an explicit zero score and a non-zero `text_score`. -/
def rawZeroScore : RawItem :=
  { doc_id := some "D9", texto := some "algum texto", score := some (.vnum 0),
    text_score := some (.vnum 1) }

theorem claim_C10_falsy_score_witness :
    _normalize_item rawZeroScore = _normalize_item { rawZeroScore with score := none } ∧
    pickScore rawZeroScore =
      pyOrV rawZeroScore.text_score
        (pyOrV rawZeroScore.sim (pyOrV rawZeroScore.similarity rawZeroScore.uscore)) :=
  claim_C10_falsy_score rawZeroScore (.vnum 0) rfl (by decide)

/-! ## Local RAG pipeline (`app.py`)

`ask_ai_with_context` is the strict-mode gate and post-synthesis validator of
`app.py`. Its retrieval (`retrieve(user_text, k=5)`, an embedding + SQLite
scan) is an external effect, modelled by passing the retrieved snippet list as
an argument; the two chat-completion calls are oracles in `AppEnv`. The
list-mode flag only changes the prompt text and the token budget handed to
the completion oracle, never the control flow of the returned string. -/

/-- A row of `retrieve()` in `app.py`: `{"id", "source", "ord", "content",
"score"}`. -/
structure RagSnip where
  id : Nat
  source : String
  ord : Nat
  content : String
  score : ℚ
deriving DecidableEq

/-- Model of `os.path.basename`: the part after the last slash. -/
def basename (p : String) : String :=
  String.mk ((p.data.reverse.takeWhile (fun c => c ≠ '/')).reverse)

/-- Per-excerpt truncation of `build_context_snippets` (`app.py`):
`content[:max_chars].rstrip() + "…"` when the content is longer than the cap. -/
def truncExcerpt (maxChars : Nat) (content : String) : String :=
  if maxChars < content.length then
    String.mk (pyRstripList (content.data.take maxChars)) ++ "…"
  else content

/-- The numbered lines of `build_context_snippets`, starting at index `i`. -/
def build_context_lines (maxChars : Nat) (i : Nat) : List RagSnip → List String
  | [] => []
  | it :: rest =>
    ("[" ++ toString i ++ "] Fonte: " ++ basename it.source ++ "\n"
        ++ truncExcerpt maxChars it.content)
      :: build_context_lines maxChars (i + 1) rest

/-- Model of `build_context_snippets` (`app.py`): numbered snippet blocks,
each excerpt truncated to `maxChars` characters, joined by blank lines
(the Python default for `max_chars` is 1400). -/
def build_context_snippets (items : List RagSnip) (maxChars : Nat) : String :=
  pyJoin "\n\n" (build_context_lines maxChars 1 items)

/-- Model of `_norm` (`app.py`): lower-case and strip combining marks (NFD).
For the Latin-1 alphabet this equals the ASCII folding used elsewhere. -/
def norm_pt (s : String) : String := String.mk (pyAsciiList (s.data.map pyLowerChar))

/-- Terms that switch `ask_ai_with_context` into list mode (`app.py`). -/
def listModeTerms : List String :=
  ["condecoracao", "condecoracoes", "medalha", "medalhas",
   "atribuicao", "atribuicoes", "competencia", "competencias",
   "lista", "enumere", "quais sao", "relacione", "cite"]

/-- The literal `SYSTEM_PROMPT` of `app.py`. -/
def SYSTEM_PROMPT : String :=
  "Você é o BotPMPR, assistente para policiais militares no WhatsApp. "
    ++ "Responda SEM rodeios, em português do Brasil, no tom operacional.\n\n"
    ++ "REGRAS DE ESTILO:\n"
    ++ "1) No máximo 20 linhas (ou 20 passos numerados).\n"
    ++ "2) Frases curtas, voz ativa, sem desculpas.\n"
    ++ "3) Use *negrito* só para termos-chave.\n"
    ++ "4) Quando útil, liste no máximo 3 pontos (•). Exceção: se a pergunta pedir para *listar/enumere/quais são/relacione*, "
    ++ "pode listar TODOS os itens relevantes.\n"
    ++ "5) Faça 1 pergunta de esclarecimento apenas se faltar algo ESSENCIAL.\n"
    ++ "6) Se citar norma/procedimento, cite sigla/ato e artigo quando disponível no contexto (ex.: [1]).\n"
    ++ "7) Se NÃO houver base nos trechos fornecidos, diga claramente que não encontrou nos documentos e peça o termo/nº do ato. NÃO invente.\n"

/-- The system prompt assembled by `ask_ai_with_context` around the accepted
snippets: `SYSTEM_PROMPT` plus the RAG rules, the optional list-mode
exception, and the context block. -/
def ragSystemOf (user_text : String) (relevant : List RagSnip) : String :=
  let context := build_context_snippets relevant 1400
  let list_mode := listModeTerms.any (fun t => containsSubstr t (norm_pt user_text))
  let style_extra :=
    if list_mode then
      "\n\nEXCEÇÃO DE LISTA:\n- A pergunta pede uma LISTA. Liste TODOS os itens encontrados nos trechos (1., 2., 3., ...), sem limite de linhas.\n"
    else ""
  SYSTEM_PROMPT
    ++ ("\n\nVocê TEM acesso a trechos de documentos oficiais.\n"
      ++ "REGRAS RAG:\n"
      ++ "- Responda SOMENTE com base nos trechos abaixo.\n"
      ++ "- Cite [n] referente ao(s) trecho(s) usado(s).\n"
      ++ "- Se NÃO houver evidência suficiente, responda literalmente: 'Não encontrei isso nos documentos.'\n"
      ++ style_extra ++ "\n" ++ context)

/-- Configuration and completion oracles for the `app.py` pipeline:
`openaiKeyOn` models the presence of `OPENAI_API_KEY`, `minSim` the
`RAG_MIN_SIM` threshold, `strict` the `RAG_STRICT` flag; `complete` maps the
assembled system prompt to the model output (`none` = raised exception) and
`completeNoRag` plays the same role for the ungrounded `ask_ai` fallback. -/
structure AppEnv where
  openaiKeyOn : Bool
  minSim : ℚ
  strict : Bool
  complete : String → Option String
  completeNoRag : String → Option String

/-- Model of `ask_ai` (`app.py`): the ungrounded fallback answer path. -/
def ask_ai (env : AppEnv) (user_text : String) : String :=
  if env.openaiKeyOn = false then "A IA não está configurada (OPENAI_API_KEY ausente)."
  else
    match env.completeNoRag user_text with
    | none => "Não consegui consultar a IA no momento. Tente novamente em instantes."
    | some content => pyStrip content

/-- Model of `ask_ai_with_context` (`app.py`): confidence gate over the
retrieved snippets (`snippets = retrieve(user_text, k=5)`), strict-mode
refusal, prompt assembly, completion call, and post-synthesis citation
validation. -/
def ask_ai_with_context (env : AppEnv) (user_text : String)
    (snippets : List RagSnip) : String :=
  if env.openaiKeyOn = false then "A IA não está configurada (OPENAI_API_KEY ausente)."
  else
    let relevant := snippets.filter (fun s => env.minSim ≤ s.score)
    if relevant = [] then
      if env.strict then
        "Não encontrei isso nos documentos. Envie o número/termo do ato (ex.: portaria, artigo) para eu localizar."
      else ask_ai env user_text
    else
      match env.complete (ragSystemOf user_text relevant) with
      | none => "Não consegui consultar a IA agora. Tente novamente em instantes."
      | some content =>
        let answer := pyStrip content
        if hasCitation answer = false ∧
            containsSubstr "Não encontrei isso nos documentos" answer = false then
          "Não encontrei isso nos documentos."
        else answer

/-- C1: whenever no retrieved snippet reaches the `RAG_MIN_SIM` threshold and
strict mode is on (and the API key is configured, so the pipeline runs at
all), `ask_ai_with_context` returns the fixed refusal string — for every
completion oracle, i.e. regardless of model behavior, and without ever taking
the ungrounded `ask_ai` path. -/
theorem claim_C1_strict_gate (env : AppEnv) (user_text : String)
    (snippets : List RagSnip) (hkey : env.openaiKeyOn = true)
    (hstrict : env.strict = true)
    (hbelow : ∀ s ∈ snippets, s.score < env.minSim) :
    ask_ai_with_context env user_text snippets =
      "Não encontrei isso nos documentos. Envie o número/termo do ato (ex.: portaria, artigo) para eu localizar." := by
  have hfilter : snippets.filter (fun s => env.minSim ≤ s.score) = [] := by
    rw [List.filter_eq_nil_iff]
    intro s hs
    simpa using not_le.mpr (hbelow s hs)
  simp [ask_ai_with_context, hkey, hstrict, hfilter]

/-- Environment for the C1 witness: strict mode, high threshold, and oracles
that would answer if they were ever consulted. -/
def envC1 : AppEnv :=
  { openaiKeyOn := true, minSim := 1, strict := true,
    complete := fun _ => some "resposta fabricada pelo modelo [1]",
    completeNoRag := fun _ => some "palpite sem base documental" }

/-- Low-scoring retrieval results for the C1 witness. -/
def snipsLow : List RagSnip :=
  [{ id := 1, source := "portarias/p1.pdf", ord := 0,
     content := "conteudo pouco relacionado", score := 0 }]

theorem claim_C1_strict_gate_witness :
    ask_ai_with_context envC1 "qual a regra de promocao" snipsLow =
      "Não encontrei isso nos documentos. Envie o número/termo do ato (ex.: portaria, artigo) para eu localizar." :=
  claim_C1_strict_gate envC1 "qual a regra de promocao" snipsLow rfl rfl (by decide)

/-- High-scoring retrieval result: the confidence gate accepts it. -/
def snipsHigh : List RagSnip :=
  [{ id := 1, source := "portarias/p2.pdf", ord := 0,
     content := "Artigo 5 dispoe sobre o tema da consulta", score := 1 }]

/-- Model output that contains the refusal sentence as a proper substring,
has no bracket citation, and is not the literal refusal sentence. -/
def outC2 : String :=
  "Veja: Não encontrei isso nos documentos, mas o setor de RH pode orientar."

/-- Environment whose completion oracle returns `outC2`. -/
def envC2 : AppEnv :=
  { openaiKeyOn := true, minSim := 1, strict := true,
    complete := fun _ => some outC2, completeNoRag := fun _ => none }

/-- C2 counterexample: hits were accepted, the model output `outC2` contains
no bracket-citation marker and is not the literal refusal sentence, yet the
validator does not replace it — it is returned unchanged, because the code
tests the refusal sentence by substring containment, not by equality. -/
theorem claim_C2_counterexample :
    ask_ai_with_context envC2 "qual o procedimento" snipsHigh = outC2 ∧
    hasCitation outC2 = false ∧
    outC2 ≠ "Não encontrei isso nos documentos." ∧
    snipsHigh.filter (fun s => envC2.minSim ≤ s.score) ≠ [] := by
  exact ⟨by decide, by decide, by decide, by decide⟩

/-- C2 (amended): for every request in which hits were accepted, if the
(stripped) model output contains no bracket-citation marker and does not
contain the refusal sentence as a substring, the validator replaces the
output with the fixed refusal sentence. -/
theorem claim_C2_validator (env : AppEnv) (user_text : String)
    (snippets : List RagSnip) (out : String)
    (hkey : env.openaiKeyOn = true)
    (hrel : snippets.filter (fun s => env.minSim ≤ s.score) ≠ [])
    (hcomp : env.complete
      (ragSystemOf user_text (snippets.filter (fun s => env.minSim ≤ s.score))) = some out)
    (hcit : hasCitation (pyStrip out) = false)
    (hsub : containsSubstr "Não encontrei isso nos documentos" (pyStrip out) = false) :
    ask_ai_with_context env user_text snippets = "Não encontrei isso nos documentos." := by
  rw [ask_ai_with_context]
  simp only [hkey]
  rw [if_neg (by simp)]
  rw [if_neg hrel, hcomp]
  simp [hcit, hsub]

/-- Model output with neither a citation marker nor the refusal substring. -/
def outC2w : String := "Resposta direta sem marcador de citacao nem fundamento."

/-- Environment whose completion oracle returns `outC2w`. -/
def envC2w : AppEnv :=
  { openaiKeyOn := true, minSim := 1, strict := true,
    complete := fun _ => some outC2w, completeNoRag := fun _ => none }

theorem claim_C2_validator_witness :
    ask_ai_with_context envC2w "qual o procedimento" snipsHigh =
      "Não encontrei isso nos documentos." :=
  claim_C2_validator envC2w "qual o procedimento" snipsHigh outC2w rfl
    (by decide) rfl (by decide) (by decide)

/-! ## Prompt builder (`utils/prompt.py`)

The three date regexes of `_normalize_date` are deterministic because their
optional separator classes are disjoint from the digit class, so they are
modelled by direct parsers; `re.search` is modelled by trying every suffix. -/

/-- Consume exactly `n` digits, returning them and the remainder. -/
def takeDigitsN : Nat → List Char → Option (List Char × List Char)
  | 0, l => some ([], l)
  | _ + 1, [] => none
  | n + 1, c :: rest =>
    if c.isDigit then (takeDigitsN n rest).map (fun p => (c :: p.1, p.2)) else none

/-- Optionally consume one separator: hyphen, slash or space. -/
def optSep (l : List Char) : List Char :=
  match l with
  | c :: rest => if c = '-' || c = '/' || c = ' ' then rest else c :: rest
  | [] => []

/-- Optionally consume one non-digit character (the class `[^\d]`). -/
def optNonDigit (l : List Char) : List Char :=
  match l with
  | c :: rest => if c.isDigit then c :: rest else rest
  | [] => []

/-- Model of the first anchored date regex of `_normalize_date`:
four digits, optional separator (hyphen, slash, space), two digits, optional
separator, two digits, end of string. -/
def dateYMD (l : List Char) : Option (String × String × String) :=
  (takeDigitsN 4 l).bind fun p1 =>
    (takeDigitsN 2 (optSep p1.2)).bind fun p2 =>
      (takeDigitsN 2 (optSep p2.2)).bind fun p3 =>
        if p3.2 = [] then some (String.mk p1.1, String.mk p2.1, String.mk p3.1) else none

/-- Model of the second anchored date regex of `_normalize_date`:
two digits, optional separator, two digits, optional separator, four digits,
end of string. -/
def dateDMY (l : List Char) : Option (String × String × String) :=
  (takeDigitsN 2 l).bind fun p1 =>
    (takeDigitsN 2 (optSep p1.2)).bind fun p2 =>
      (takeDigitsN 4 (optSep p2.2)).bind fun p3 =>
        if p3.2 = [] then some (String.mk p1.1, String.mk p2.1, String.mk p3.1) else none

/-- One attempt of `re.search(r"(\d{4})[^\d]?(\d{2})[^\d]?(\d{2})", s)` at the
current position. -/
def dateLooseAt (l : List Char) : Option (String × String × String) :=
  (takeDigitsN 4 l).bind fun p1 =>
    (takeDigitsN 2 (optNonDigit p1.2)).bind fun p2 =>
      (takeDigitsN 2 (optNonDigit p2.2)).map fun p3 =>
        (String.mk p1.1, String.mk p2.1, String.mk p3.1)

/-- The `re.search` scan for `dateLooseAt`, trying every start position. -/
def dateLooseSearch : List Char → Option (String × String × String)
  | [] => none
  | c :: rest =>
    match dateLooseAt (c :: rest) with
    | some r => some r
    | none => dateLooseSearch rest

/-- Model of `_normalize_date` (`utils/prompt.py`). -/
def _normalize_date (raw : Option String) : String :=
  match raw with
  | none => "s/ data"
  | some r =>
    if r = "" then "s/ data"
    else
      let s := pyStrip r
      match dateYMD s.data with
      | some (a, mm, d) => d ++ "/" ++ mm ++ "/" ++ a
      | none =>
        match dateDMY s.data with
        | some (d, mm, a) => d ++ "/" ++ mm ++ "/" ++ a
        | none =>
          match dateLooseSearch s.data with
          | some (a, mm, d) => d ++ "/" ++ mm ++ "/" ++ a
          | none => s

/-- Three-digit zero padding for the fractional part of a score. -/
def fmt3Pad (n : Nat) : String :=
  if n < 10 then "00" ++ toString n
  else if n < 100 then "0" ++ toString n
  else toString n

/-- Approximate model of the Python float format `f"{score:.3f}"` on the
rational score model (round half up; Python rounds the underlying binary
double half to even — no claim depends on this rendering). -/
def fmt3 (x : ℚ) : String :=
  let m : Int := ⌊x * 1000 + 1 / 2⌋
  (if m < 0 then "-" else "") ++ toString (m.natAbs / 1000) ++ "." ++ fmt3Pad (m.natAbs % 1000)

/-- A passage dictionary as consumed by `_format_passage`
(`utils/prompt.py`): the top-level keys `source_uri`, `score`, `snippet` and
the `meta` sub-dictionary keys. The Python meta keys `data` and `src` are
named `dataKey` and `srcKey` here. -/
structure Passage where
  title : Option String := none
  doc_title : Option String := none
  number : Option String := none
  doc_number : Option String := none
  subject : Option String := none
  assunto : Option String := none
  date : Option String := none
  dataKey : Option String := none
  source_uri : Option String := none
  meta_source_uri : Option String := none
  srcKey : Option String := none
  score : Option ScoreVal := none
  snippet : Option String := none
deriving DecidableEq

/-- Model of `_format_passage` (`utils/prompt.py`). -/
def _format_passage (p : Passage) : String :=
  let title := pyOrS p.title (pyOrS p.doc_title "Documento")
  let number := pyOrS p.number (pyOrS p.doc_number "s/ nº")
  let subject := pyOrS p.subject (pyOrS p.assunto "assunto não informado")
  let date := _normalize_date (pyOrOpt p.date p.dataKey)
  let src := pyOrS p.source_uri (pyOrS p.meta_source_uri (pyOrS p.srcKey ""))
  let score_s :=
    match p.score with
    | some (.vnum x) => fmt3 x
    | _ => "s/score"
  let snippet := pyStrip (p.snippet.getD "")
  "[TITLE:" ++ title ++ " | NUM:" ++ number ++ " | ASSUNTO:" ++ subject
    ++ " | DATA:" ++ date ++ " | SCORE:" ++ score_s ++ " | SRC:" ++ src ++ "]\n"
    ++ snippet ++ "\n"

/-- The line list of `_format_history` (`utils/prompt.py`): one dash line per
non-blank history entry, cut to the first 5 (`lines[:5]`). -/
def _format_history_lines (history : List String) : List String :=
  ((history.filter (fun h => h ≠ "" ∧ pyStripList h.data ≠ [])).map
    (fun h => "- " ++ pyStrip h)).take 5

/-- Model of `_format_history` (`utils/prompt.py`). -/
def _format_history (history : List String) : String :=
  if history = [] then "Sem histórico relevante."
  else pyJoin "\n" (_format_history_lines history)

/-- Model of `_needs_deepening` (`utils/prompt.py`). -/
def _needs_deepening (user_query : String) : Bool :=
  let q := String.mk (user_query.data.map pyLowerChar)
  ["fale mais", "discorra", "explique melhor", "explique", "detalhe",
   "aprofund", "quero mais detalhes", "contexto", "por quê", "porque?"].any
    (fun g => containsSubstr g q)

/-- The expanded rules block of `build_prompt` (`utils/prompt.py`). -/
def rulesExpanded : String :=
  "Instruções (modo EXPLICAR/DETALHAR):\n"
    ++ "1) Explique com clareza, podendo usar até 10 linhas.\n"
    ++ "2) Baseie-se SOMENTE nos trechos do contexto — não invente artigos, incisos, números ou datas.\n"
    ++ "3) Se houver conflito entre trechos, priorize o documento MAIS RECENTE pela data.\n"
    ++ "4) Se a resposta não estiver nos trechos, diga que não localizou no acervo atual.\n"
    ++ "5) Inclua exemplos práticos, contexto/objetivo da norma e possíveis consequências administrativas quando aplicável.\n"
    ++ "6) Ao final, inclua UMA ÚNICA citação neste formato exato: Nome do documento, nº XXX, assunto, DD/MM/AAAA.\n"
    ++ "7) Nunca cite documento que NÃO esteja listado no bloco de contexto.\n"

/-- The objective rules block of `build_prompt` (`utils/prompt.py`). -/
def rulesObjective : String :=
  "Instruções (modo OBJETIVO):\n"
    ++ "1) Responda em no máximo 3 linhas, direto ao ponto.\n"
    ++ "2) Baseie-se SOMENTE nos trechos do contexto — não invente artigos, incisos, números ou datas.\n"
    ++ "3) Se houver conflito entre trechos, priorize o documento MAIS RECENTE pela data.\n"
    ++ "4) Se a resposta não estiver nos trechos, diga que não localizou no acervo atual.\n"
    ++ "5) Ao final, inclua UMA ÚNICA citação neste formato exato: Nome do documento, nº XXX, assunto, DD/MM/AAAA.\n"
    ++ "6) Nunca cite documento que NÃO esteja listado no bloco de contexto.\n"

/-- Rules block selected by `build_prompt` for a query. -/
def rulesFor (user_query : String) : String :=
  if _needs_deepening user_query then rulesExpanded else rulesObjective

/-- Everything `build_prompt` appends after its rules block (the trailing
part of the final f-string). -/
def prompt_tail (hist_block context_block user_query : String) : String :=
  "\n" ++ ("Histórico relevante (últimas interações do usuário):\n"
    ++ (hist_block ++ ("\n\n" ++ ("Contexto (trechos recuperados):\n"
    ++ (context_block ++ ("\n\n" ++ ("Pergunta do usuário:\n" ++ (user_query ++ "\n"))))))))

/-- Model of `build_prompt` (`utils/prompt.py`); `history = None` is the
empty list. -/
def build_prompt (user_query : String) (passages : List Passage)
    (history : List String) : String :=
  let context_block :=
    if passages = [] then "NENHUM TRECHO ENCONTRADO."
    else pyJoin "\n---\n" (passages.map _format_passage)
  rulesFor user_query ++ prompt_tail (_format_history history) context_block user_query

/-- Ten-turn conversation history. -/
def hist10 : List String :=
  ["t1", "t2", "t3", "t4", "t5", "t6", "t7", "t8", "t9", "t10"]

/-- C9 counterexample: for a 10-turn history, `_format_history` renders
exactly 5 lines (not 3), and they are the FIRST 5 turns, not the last ones. -/
theorem claim_C9_counterexample :
    _format_history_lines hist10 = ["- t1", "- t2", "- t3", "- t4", "- t5"] ∧
    (_format_history_lines hist10).length = 5 ∧
    (5 : Nat) ≠ 3 ∧
    _format_history_lines hist10 ≠ ["- t8", "- t9", "- t10"] ∧
    _format_history hist10 = "- t1\n- t2\n- t3\n- t4\n- t5" := by
  exact ⟨by decide, by decide, by decide, by decide, by decide⟩

/-- C9 (amended): `_format_history` renders one line per non-blank history
entry, cut to at most 5 lines, and those lines are the FIRST 5 non-blank
entries in order (a prefix of the full rendering, not the last entries);
a history with at least 5 non-blank turns therefore renders exactly 5 lines. -/
theorem claim_C9_history_window (history : List String) :
    (_format_history_lines history).length =
      min (history.filter (fun h => h ≠ "" ∧ pyStripList h.data ≠ [])).length 5 ∧
    ∃ rest,
      (history.filter (fun h => h ≠ "" ∧ pyStripList h.data ≠ [])).map
          (fun h => "- " ++ pyStrip h) =
        _format_history_lines history ++ rest := by
  constructor
  · simp [_format_history_lines, Nat.min_comm]
  · exact ⟨_, (List.take_append_drop 5 _).symm⟩

/-! ## Claim C3: context size -/

theorem strLength_append (s t : String) : (s ++ t).length = s.length + t.length := by
  show (s.data ++ t.data).length = s.data.length + t.data.length
  exact List.length_append _ _

theorem length_dropWhile_le_own (p : Char → Bool) (l : List Char) :
    (l.dropWhile p).length ≤ l.length := by
  induction l with
  | nil => simp
  | cons c rest ih =>
    by_cases h : p c
    · simp only [List.dropWhile_cons, h, if_true, List.length_cons]
      omega
    · simp [List.dropWhile_cons, h]

theorem pyRstripList_append_eq (l : List Char) :
    pyRstripList l ++ (l.reverse.takeWhile isPySpace).reverse = l := by
  rw [pyRstripList, ← List.reverse_append, List.takeWhile_append_dropWhile,
    List.reverse_reverse]

theorem pyRstripList_length_le (l : List Char) : (pyRstripList l).length ≤ l.length := by
  calc (pyRstripList l).length
      = (l.reverse.dropWhile isPySpace).length := by simp [pyRstripList]
    _ ≤ l.reverse.length := length_dropWhile_le_own _ _
    _ = l.length := by simp

theorem excerpt_sum_le_lines_sum (maxChars i : Nat) (items : List RagSnip) :
    (items.map (fun it => (truncExcerpt maxChars it.content).length)).sum ≤
      ((build_context_lines maxChars i items).map String.length).sum := by
  induction items generalizing i with
  | nil => simp [build_context_lines]
  | cons it rest ih =>
    simp only [build_context_lines, List.map_cons, List.sum_cons]
    have hline : (truncExcerpt maxChars it.content).length ≤
        ("[" ++ toString i ++ "] Fonte: " ++ basename it.source ++ "\n"
          ++ truncExcerpt maxChars it.content).length := by
      rw [strLength_append]
      omega
    exact Nat.add_le_add hline (ih (i + 1))

theorem sum_le_pyJoin_length (sep : String) :
    ∀ l : List String, (l.map String.length).sum ≤ (pyJoin sep l).length
  | [] => by simp [pyJoin]
  | [x] => by simp [pyJoin]
  | x :: y :: xs => by
    have ih := sum_le_pyJoin_length sep (y :: xs)
    simp only [pyJoin, List.map_cons, List.sum_cons] at ih ⊢
    rw [strLength_append, strLength_append]
    omega

/-- A realistic retrieval row: a chunk of the maximal chunk size (1200-1400
characters are the chunk sizes `chunk_text` produces in `app.py`). -/
def bigSnip : RagSnip :=
  { id := 1, source := "x", ord := 0,
    content := String.mk (List.replicate 1400 'a'), score := 1 }

/-- Five accepted snippets, as `retrieve(user_text, k=5)` can return. -/
def bigItems : List RagSnip := [bigSnip, bigSnip, bigSnip, bigSnip, bigSnip]

/-- C3 counterexample: with five accepted 1400-character excerpts (the
default `k=5` and per-excerpt cap of `build_context_snippets`), the assembled
context block exceeds 6500 characters — no total max-character budget is
enforced anywhere. -/
theorem claim_C3_counterexample :
    6500 < (build_context_snippets bigItems 1400).length := by
  have hlen : bigSnip.content.length = 1400 := by
    show (List.replicate 1400 'a').length = 1400
    rw [List.length_replicate]
  have hc : (truncExcerpt 1400 bigSnip.content).length = 1400 := by
    rw [truncExcerpt, if_neg (by simp [hlen])]
    exact hlen
  have hsum : (bigItems.map (fun it => (truncExcerpt 1400 it.content).length)).sum = 7000 := by
    simp only [bigItems, List.map_cons, List.map_nil, hc, List.sum_cons, List.sum_nil]
    omega
  have h1 := excerpt_sum_le_lines_sum 1400 1 bigItems
  have h2 := sum_le_pyJoin_length "\n\n" (build_context_lines 1400 1 bigItems)
  have h3 : (build_context_snippets bigItems 1400) =
      pyJoin "\n\n" (build_context_lines 1400 1 bigItems) := rfl
  rw [h3]
  omega

/-- C3 (amended): each excerpt rendered by `build_context_snippets` is capped
at 1400 characters plus an ellipsis; truncation removes only the excerpt's
tail (what is kept is a prefix of the original content); and the rules block
is never removed — it is literally the leading segment of the prompt built by
`build_prompt`. No cap on the TOTAL assembled context exists (see the
counterexample). -/
theorem claim_C3_budget :
    (∀ content : String, (truncExcerpt 1400 content).length ≤ 1401) ∧
    (∀ content : String,
      truncExcerpt 1400 content = content ∨
      ∃ kept rest, truncExcerpt 1400 content = String.mk kept ++ "…" ∧
        content.data = kept ++ rest) ∧
    (∀ (q : String) (ps : List Passage) (hist : List String),
      (build_prompt q ps hist).data.take (rulesFor q).data.length = (rulesFor q).data) := by
  refine ⟨?_, ?_, ?_⟩
  · intro content
    rw [truncExcerpt]
    split
    · have h2 : (pyRstripList (content.data.take 1400)).length ≤ 1400 := by
        calc (pyRstripList (content.data.take 1400)).length
            ≤ (content.data.take 1400).length := pyRstripList_length_le _
          _ ≤ 1400 := List.length_take_le 1400 content.data
      have h3 : (String.mk (pyRstripList (content.data.take 1400)) ++ "…").length =
          (pyRstripList (content.data.take 1400)).length + 1 := by
        rw [strLength_append]
        rfl
      omega
    · rename_i hlen
      have := Nat.le_of_not_lt hlen
      omega
  · intro content
    rw [truncExcerpt]
    split
    · right
      refine ⟨pyRstripList (content.data.take 1400),
        ((content.data.take 1400).reverse.takeWhile isPySpace).reverse
          ++ content.data.drop 1400, rfl, ?_⟩
      conv_lhs => rw [← List.take_append_drop 1400 content.data]
      rw [← List.append_assoc, pyRstripList_append_eq]
    · left
      rfl
  · intro q ps hist
    simp only [build_prompt]
    rw [strData_append, List.take_left]

/-! ## Acronym/synonym expansion (`synonyms.py`)

The sigla patterns have the form `\bSIGLA\b` (case-insensitive); the full-text
patterns are word sequences separated by `\s+` without anchors, so their
optional suffixes (`[s]?`, `(is)?`, the optional trailing group of TCIP) never
change whether `re.search` finds a match and are omitted from the word lists. -/

/-- Case-insensitive literal match of `target` at the head of `l`, returning
the remainder on success. -/
def matchLitCI : List Char → List Char → Option (List Char)
  | [], l => some l
  | _ :: _, [] => none
  | t :: ts, c :: cs => if pyLowerChar c = pyLowerChar t then matchLitCI ts cs else none

/-- The sigla pattern matches here: the literal, then a word boundary. -/
def siglaHereOk (target : List Char) (l : List Char) : Bool :=
  match matchLitCI target l with
  | none => false
  | some [] => true
  | some (d :: _) => !isWordChar d

/-- Scan for `\btarget\b`; `prevWord` records whether the previous character
was a word character (which forbids a boundary before the current one). -/
def siglaGo (target : List Char) (prevWord : Bool) : List Char → Bool
  | [] => false
  | c :: rest =>
    (!prevWord && siglaHereOk target (c :: rest)) || siglaGo target (isWordChar c) rest

/-- Model of `re.search(pat, q, re.IGNORECASE)` for a `\bSIGLA\b` pattern. -/
def matchesSigla (target : String) (q : String) : Bool :=
  siglaGo target.data false q.data

/-- Consume the regex `\s+`: at least one whitespace character. -/
def ws1 (l : List Char) : Option (List Char) :=
  match l with
  | [] => none
  | c :: rest => if isPySpace c then some (rest.dropWhile isPySpace) else none

/-- Match a sequence of literal words separated by `\s+` at this position. -/
def wordsHere : List (List Char) → List Char → Bool
  | [], _ => true
  | [w], l => (matchLitCI w l).isSome
  | w :: w2 :: ws, l =>
    match matchLitCI w l with
    | none => false
    | some rest =>
      match ws1 rest with
      | none => false
      | some rest2 => wordsHere (w2 :: ws) rest2

/-- Try a position-local matcher at every suffix (the `re.search` scan). -/
def scanSuffixes (p : List Char → Bool) : List Char → Bool
  | [] => p []
  | c :: rest => p (c :: rest) || scanSuffixes p rest

/-- Model of `re.search` for one full-text pattern (a word sequence). -/
def matchesTexto (ws : List String) (q : String) : Bool :=
  scanSuffixes (wordsHere (ws.map String.data)) q.data

/-- One entry of the `SYNONYMS` table (`synonyms.py`). -/
structure SynEntry where
  key : String
  siglas : List String
  textos : List (List String)
  from_sigla : List String
  from_texto : List String

/-- The `SYNONYMS` table of `synonyms.py`, in dictionary insertion order. -/
def SYNONYMS : List SynEntry :=
  [{ key := "CPP", siglas := ["CPP"],
     textos := [["Comissão", "de", "Promoção", "de", "Praça"]],
     from_sigla := ["Comissão de Promoção de Praças", "Comissão de Promoção de Praça"],
     from_texto := ["CPP"] },
   { key := "CPO", siglas := ["CPO"],
     textos := [["Comissão", "de", "Promoção", "de", "Oficial"]],
     from_sigla := ["Comissão de Promoção de Oficiais"],
     from_texto := ["CPO"] },
   { key := "BOU", siglas := ["BOU"],
     textos := [["Boletim", "de", "Ocorrência", "Unificado"]],
     from_sigla := ["Boletim de Ocorrência Unificado"],
     from_texto := ["BOU"] },
   { key := "TCIP", siglas := ["TCIP"],
     textos := [["Termo", "Circunstanciado"]],
     from_sigla := ["Termo Circunstanciado de Infração Penal"],
     from_texto := ["TCIP"] },
   { key := "CICCM", siglas := ["CICCM"],
     textos := [["Centro", "Integrado", "de", "Comando", "e", "Controle", "Móvel"]],
     from_sigla := ["Centro Integrado de Comando e Controle Móvel"],
     from_texto := ["CICCM"] }]

/-- The `MAX_EXPANSIONS_PER_TERM` cap of `synonyms.py`. -/
def MAX_EXPANSIONS_PER_TERM : Nat := 2

/-- The expansions one entry contributes for a query
(`INCLUDE_SELF_IN_EXPANSIONS` is `False` in the source). -/
def entryExtras (q : String) (e : SynEntry) : List String :=
  (if e.siglas.any (fun p => matchesSigla p q) then
    e.from_sigla.take MAX_EXPANSIONS_PER_TERM
  else []) ++
  (if e.textos.any (fun ws => matchesTexto ws q) then
    e.from_texto.take MAX_EXPANSIONS_PER_TERM
  else [])

/-- Loop of `_dedup_keep_order` (`synonyms.py`) with its `seen` key set. -/
def dedupKeepOrderAux (seen : List String) : List String → List String
  | [] => []
  | t :: rest =>
    let key := String.mk (pyStripList (t.data.map pyLowerChar))
    if key = "" then dedupKeepOrderAux seen rest
    else if key ∈ seen then dedupKeepOrderAux seen rest
    else pyStrip t :: dedupKeepOrderAux (key :: seen) rest

/-- Model of `_dedup_keep_order` (`synonyms.py`). -/
def _dedup_keep_order (items : List String) : List String := dedupKeepOrderAux [] items

/-- Model of `expand_query` (`synonyms.py`): empty or all-whitespace queries
are returned unchanged, otherwise the stripped query is extended with the
quoted, deduplicated expansions of every matched pattern. -/
def expand_query (query : String) : String :=
  if query = "" ∨ pyStripList query.data = [] then query
  else
    let q := pyStrip query
    let extras := _dedup_keep_order ((SYNONYMS.map (entryExtras q)).flatten)
    if extras = [] then q
    else q ++ " " ++ pyJoin " " (extras.map (fun t => "\"" ++ t ++ "\""))

/-- Does any sigla or full-text pattern of the table match the query? -/
def matchesAnySynonym (q : String) : Bool :=
  SYNONYMS.any (fun e =>
    e.siglas.any (fun p => matchesSigla p q) || e.textos.any (fun ws => matchesTexto ws q))

theorem flatten_eq_nil_of_forall {α : Type} {L : List (List α)}
    (h : ∀ x ∈ L, x = []) : L.flatten = [] := by
  induction L with
  | nil => rfl
  | cons x rest ih =>
    rw [List.flatten_cons, h x (List.mem_cons_self _ _), List.nil_append]
    exact ih (fun y hy => h y (List.mem_cons_of_mem _ hy))

/-- C8 counterexample: the input `" prazo "` is empty of matches (no acronym
or synonym pattern applies), yet `expand_query` does not return it unchanged:
it returns the stripped string `"prazo"`. -/
theorem claim_C8_counterexample :
    matchesAnySynonym (pyStrip " prazo ") = false ∧
    expand_query " prazo " = "prazo" ∧
    "prazo" ≠ " prazo " := by
  exact ⟨by decide, by decide, by decide⟩

/-- C8 (amended): `expand_query` is a total function (the embedding is a
plain Lean function — it never throws); empty or all-whitespace input is
returned unchanged; and input matching no acronym/synonym pattern is returned
STRIPPED of surrounding whitespace — unchanged exactly when it has no
leading/trailing whitespace. -/
theorem claim_C8_expand_unmatched (query : String)
    (h : matchesAnySynonym (pyStrip query) = false) :
    expand_query query =
      if query = "" ∨ pyStripList query.data = [] then query else pyStrip query := by
  by_cases hc : query = "" ∨ pyStripList query.data = []
  · rw [expand_query, if_pos hc, if_pos hc]
  · rw [expand_query, if_neg hc, if_neg hc]
    have hall : ∀ e ∈ SYNONYMS, entryExtras (pyStrip query) e = [] := by
      intro e he
      have hb : (e.siglas.any (fun p => matchesSigla p (pyStrip query)) ||
          e.textos.any (fun ws => matchesTexto ws (pyStrip query))) = false := by
        rw [matchesAnySynonym] at h
        have := List.any_eq_false.mp h e he
        simpa using this
      rcases Bool.or_eq_false_iff.mp hb with ⟨hs, ht⟩
      rw [entryExtras, if_neg (by simp [hs]), if_neg (by simp [ht])]
      rfl
    have hflat : (SYNONYMS.map (entryExtras (pyStrip query))).flatten = [] := by
      apply flatten_eq_nil_of_forall
      intro x hx
      rcases List.mem_map.mp hx with ⟨e, he, rfl⟩
      exact hall e he
    have hextras : _dedup_keep_order ((SYNONYMS.map (entryExtras (pyStrip query))).flatten)
        = [] := by
      rw [hflat]
      rfl
    simp [hextras]

theorem claim_C8_expand_unmatched_witness : expand_query " prazo " = "prazo" := by
  have h := claim_C8_expand_unmatched " prazo " (by decide)
  rw [h]
  decide
